import Mathlib

/-!
Verification development for the resource-isolation core of the youki
container runtime: the systemd "unified" resource controller
(crates/libcgroups/src/systemd/unified.rs) and the Linux sandbox
transition layer (crates/libcontainer/src/syscall/linux.rs).

Pure string-processing and table-building code is embedded directly as
Lean functions; the privileged syscall sequences (pivot_rootfs, set_id,
close_range) are embedded as trace-producing functions over an explicit
"world" record that fixes the outcome of each underlying operating-system
call, so ordering properties become statements about the produced traces.
-/

namespace Youki

/-! ### String parsing primitives

These model the Rust standard-library behaviour the source relies on:
`str::parse::<u64>`, `str::parse::<i64>`, `str::trim`, and
`str::split_whitespace`.
-/

/-- Whitespace test used by `trim` and `split_whitespace` (ASCII whitespace). -/
def isWhitespaceChar (c : Char) : Bool :=
  c = ' ' || c = '\t' || c = '\n' || c = '\r'

/-- Fold a list of decimal digit characters into the number they denote. -/
def digitsToNat (l : List Char) : Nat :=
  l.foldl (fun a c => a * 10 + (c.toNat - 48)) 0

/-- Model of `str::parse::<u64>`: an optional leading `+`, then one or more
decimal digits, value below `2^64`; anything else is a parse failure. -/
def parseU64 (s : String) : Option Nat :=
  let cs := s.data
  let cs := match cs with
    | '+' :: rest => rest
    | cs => cs
  if cs = [] then none
  else if cs.all Char.isDigit then
    let n := digitsToNat cs
    if n < 2 ^ 64 then some n else none
  else none

/-- Model of `str::parse::<i64>`: an optional sign, then one or more decimal
digits, value within the signed 64-bit range. -/
def parseI64 (s : String) : Option Int :=
  let cs := s.data
  let signed : Bool × List Char := match cs with
    | '+' :: rest => (false, rest)
    | '-' :: rest => (true, rest)
    | cs => (false, cs)
  let neg := signed.1
  let cs := signed.2
  if cs = [] then none
  else if cs.all Char.isDigit then
    let n := digitsToNat cs
    if neg then
      if n ≤ 2 ^ 63 then some (-(n : Int)) else none
    else
      if n < 2 ^ 63 then some (n : Int) else none
  else none

/-- Cast of an `i64` value to `u64`, as Rust's `as u64` (two's complement). -/
def i64ToU64 (n : Int) : Nat :=
  (n.emod (2 ^ 64)).toNat

/-- Model of `str::trim`: strip whitespace from both ends. -/
def trimString (s : String) : String :=
  String.mk (((s.data.dropWhile isWhitespaceChar).reverse.dropWhile isWhitespaceChar).reverse)

/-- Accumulator-based worker for `splitWhitespace`. -/
def splitWhitespaceAux : List Char → List Char → List (List Char)
  | [], acc => if acc = [] then [] else [acc.reverse]
  | c :: rest, acc =>
    if isWhitespaceChar c then
      if acc = [] then splitWhitespaceAux rest []
      else acc.reverse :: splitWhitespaceAux rest []
    else splitWhitespaceAux rest (c :: acc)

/-- Model of `str::split_whitespace`: the maximal whitespace-free substrings,
in order, never containing the empty string. -/
def splitWhitespace (s : String) : List String :=
  (splitWhitespaceAux s.data []).map String.mk

/-! ### Property values and the property map

`zbus::zvariant::Value` is used by the source only at `U64` and byte-array
(`Array` of `U8`) shapes; the property map is a `HashMap<&str, Value>`,
modelled as an insertion-ordered association list with overwrite-on-insert.
-/

/-- The shapes of `zvariant::Value` the unified controller produces. -/
inductive Value where
  | u64 (n : Nat)
  | arr (bytes : List Nat)
deriving DecidableEq, Repr

/-- A property map: association list from property name to value. -/
abbrev Props := List (String × Value)

/-- HashMap-style insert: overwrite an existing key in place, else append. -/
def insertProp (m : Props) (k : String) (v : Value) : Props :=
  if (List.any m fun p => p.1 = k) then
    List.map (fun p => if p.1 = k then (k, v) else p) m
  else m ++ [(k, v)]

/-- Lookup in a property map. -/
def lookupProp (m : Props) (k : String) : Option Value :=
  match m with
  | [] => none
  | p :: rest => if p.1 = k then some p.2 else lookupProp rest k

/-- Modelled from the spec: the systemd property-name constants live in
`cpu.rs`, `cpuset.rs`, `memory.rs` and `pids.rs`, which are not among the
provided sources. Only their identity and distinctness matter here; the
strings follow the backend-native names listed in the spec's external
interface section. -/
def CPU_WEIGHT : String := "CPUWeight"

/-- Systemd property name for the CPU quota (see `CPU_WEIGHT`). -/
def CPU_QUOTA : String := "CPUQuotaPerSecUSec"

/-- Systemd property name for the CPU period (see `CPU_WEIGHT`). -/
def CPU_PERIOD : String := "CPUQuotaPeriodUSec"

/-- Systemd property name for the allowed-CPUs bitmask (see `CPU_WEIGHT`). -/
def ALLOWED_CPUS : String := "AllowedCPUs"

/-- Systemd property name for the allowed-memory-nodes bitmask (see `CPU_WEIGHT`). -/
def ALLOWED_NODES : String := "AllowedMemoryNodes"

/-- Systemd property name for the minimum-memory threshold (see `CPU_WEIGHT`). -/
def MEMORY_MIN : String := "MemoryMin"

/-- Systemd property name for the low-memory threshold (see `CPU_WEIGHT`). -/
def MEMORY_LOW : String := "MemoryLow"

/-- Systemd property name for the high-memory threshold (see `CPU_WEIGHT`). -/
def MEMORY_HIGH : String := "MemoryHigh"

/-- Systemd property name for the maximum-memory threshold (see `CPU_WEIGHT`). -/
def MEMORY_MAX : String := "MemoryMax"

/-- Systemd property name for the task-count ceiling (see `CPU_WEIGHT`). -/
def TASKS_MAX : String := "TasksMax"

/-- Modelled from the spec: `convert_shares_to_cgroup2` lives in `cpu.rs`,
which is not among the provided sources. The spec fixes the formula: clamp
shares to `[2, 262144]`, then `weight = 1 + ((shares - 2) * 9999) / 262142`
with the division rounded down; the in-source test `tests::test_set`
corroborates the worked value 22000 ↦ 840. -/
def convert_shares_to_cgroup2 (shares : Nat) : Nat :=
  let clamped := min (max shares 2) 262144
  1 + (clamped - 2) * 9999 / 262142

/-- Accumulator-based worker for `splitOnChar`. -/
def splitOnCharAux (sep : Char) : List Char → List Char → List (List Char)
  | [], acc => [acc.reverse]
  | c :: rest, acc =>
    if c = sep then acc.reverse :: splitOnCharAux sep rest []
    else splitOnCharAux sep rest (c :: acc)

/-- Split a string at every occurrence of a separator character (Rust's
`str::split(sep)`). -/
def splitOnChar (sep : Char) (s : String) : List String :=
  (splitOnCharAux sep s.data []).map String.mk

/-- Parse one comma-separated piece of a cpuset list string: either a single
index `n` or an inclusive range `a-b`. -/
def parseRangePiece (piece : String) : Option (List Nat) :=
  match splitOnChar '-' piece with
  | [a] => (parseU64 a).map (fun n => [n])
  | [a, b] =>
    match parseU64 a, parseU64 b with
    | some x, some y => if x ≤ y then some (List.range' x (y - x + 1)) else none
    | _, _ => none
  | _ => none

/-- Modelled from the spec: `to_bitmask` lives in `cpuset.rs`, which is not
among the provided sources. Per the spec's data model, a list/range string
such as "0-3,7" denotes a set of indices, encoded as the minimal byte
sequence covering the highest set index, least-significant-bit-first within
a byte; a malformed string is an error carrying the offending input. -/
def to_bitmask (s : String) : Except String (List Nat) :=
  match (splitOnChar ',' s).mapM parseRangePiece with
  | none => Except.error s
  | some bitLists =>
    let bits := bitLists.flatten
    let numBytes := if bits = [] then 0 else bits.foldl max 0 / 8 + 1
    Except.ok ((List.range numBytes).map fun i =>
      bits.foldl (fun acc b => if b / 8 = i then acc ||| (2 ^ (b % 8)) else acc) 0)

/-- Error type of the unified controller (`SystemdUnifiedError`), carrying
the offending inputs as in the source; the nested numeric-parse error detail
is elided. -/
inductive SystemdUnifiedError where
  | cpuWeight (value : String)
  | cpuMax (value : String)
  | cpuQuota (value : String)
  | cpuPeriod (value : String)
  | oldSystemd (key : String)
  | cpuSetCpu (err : String)
  | memory (name value : String)
  | pidsMax (value : String)
deriving DecidableEq, Repr

/-- One iteration of the loop body of `Unified::apply`: process a single
`(key, value)` override entry against the property map, returning the
(possibly mutated) map together with the error, if any, that the loop would
return at this entry. Mirrors the `match key.as_str()` in the source. -/
def applyEntry (key value : String) (systemd_version : Nat) (properties : Props) :
    Props × Option SystemdUnifiedError :=
  if key = "cpu.weight" then
    match parseU64 value with
    | none => (properties, some (.cpuWeight value))
    | some shares =>
      (insertProp properties CPU_WEIGHT (.u64 (convert_shares_to_cgroup2 shares)), none)
  else if key = "cpu.max" then
    match splitWhitespace value with
    | [] => (properties, some (.cpuMax value))
    | [p0] =>
      match parseU64 p0 with
      | none => (properties, some (.cpuQuota p0))
      | some quota => (insertProp properties CPU_QUOTA (.u64 quota), none)
    | [p0, p1] =>
      match parseU64 p0 with
      | none => (properties, some (.cpuQuota p0))
      | some quota =>
        let properties := insertProp properties CPU_QUOTA (.u64 quota)
        match parseU64 p1 with
        | none => (properties, some (.cpuPeriod p1))
        | some period => (insertProp properties CPU_PERIOD (.u64 period), none)
    | _ => (properties, some (.cpuMax value))
  else if key = "cpuset.cpus" ∨ key = "cpuset.mems" then
    if systemd_version ≤ 243 then (properties, some (.oldSystemd key))
    else
      match to_bitmask value with
      | .error e => (properties, some (.cpuSetCpu e))
      | .ok bitmask =>
        let systemd_cpuset := if key = "cpuset.cpus" then ALLOWED_CPUS else ALLOWED_NODES
        (insertProp properties systemd_cpuset (.arr bitmask), none)
  else if key = "memory.min" ∨ key = "memory.low" ∨ key = "memory.high" ∨ key = "memory.max" then
    match parseU64 value with
    | none => (properties, some (.memory key value))
    | some v =>
      let systemd_memory :=
        if key = "memory.min" then MEMORY_MIN
        else if key = "memory.low" then MEMORY_LOW
        else if key = "memory.high" then MEMORY_HIGH
        else MEMORY_MAX
      (insertProp properties systemd_memory (.u64 v), none)
  else if key = "pids.max" then
    match parseI64 (trimString value) with
    | none => (properties, some (.pidsMax value))
    | some pids => (insertProp properties TASKS_MAX (.u64 (i64ToU64 pids)), none)
  else
    (properties, none)

/-- The loop of `Unified::apply` over the override entries in iteration
order: each entry mutates the property map via `applyEntry`; the first
erroring entry aborts the loop with that error, leaving the mutations made
so far in place (the `?` operator returns early, with `properties` a `&mut`
argument). -/
def applyUnified (unified : List (String × String)) (systemd_version : Nat)
    (properties : Props) : Props × Option SystemdUnifiedError :=
  match unified with
  | [] => (properties, none)
  | (key, value) :: rest =>
    match applyEntry key value systemd_version properties with
    | (props, some e) => (props, some e)
    | (props, none) => applyUnified rest systemd_version props

/-! ### Mount options (`linux.rs`)

`nix::mount::MsFlags` is a bitmask over libc flag bits; only which flags a
token denotes matters here, so a flag set is modelled as a list of named
flags (`MsFlags::empty()` is `[]`, `a | b` is `[a, b]`).
-/

/-- The `MsFlags` bits used by `MountOption::from_str`. -/
inductive MsFlag where
  | rdonly | nosuid | nodev | noexec | synchronous | dirsync | remount
  | mandlock | noatime | nodiratime | bind | recursive | unbindable
  | priv | shared | slave | relatime | strictatime
deriving DecidableEq, Repr

/-- The `MountOption` enumeration: each variant carries the clear-polarity
flag and the `MsFlags` set exactly as constructed in `from_str`. -/
inductive MountOption where
  | Defaults (clear : Bool) (flags : List MsFlag)
  | Ro (clear : Bool) (flags : List MsFlag)
  | Rw (clear : Bool) (flags : List MsFlag)
  | Suid (clear : Bool) (flags : List MsFlag)
  | Nosuid (clear : Bool) (flags : List MsFlag)
  | Dev (clear : Bool) (flags : List MsFlag)
  | Nodev (clear : Bool) (flags : List MsFlag)
  | Exec (clear : Bool) (flags : List MsFlag)
  | Noexec (clear : Bool) (flags : List MsFlag)
  | Sync (clear : Bool) (flags : List MsFlag)
  | Async (clear : Bool) (flags : List MsFlag)
  | Dirsync (clear : Bool) (flags : List MsFlag)
  | Remount (clear : Bool) (flags : List MsFlag)
  | Mand (clear : Bool) (flags : List MsFlag)
  | Nomand (clear : Bool) (flags : List MsFlag)
  | Atime (clear : Bool) (flags : List MsFlag)
  | Noatime (clear : Bool) (flags : List MsFlag)
  | Diratime (clear : Bool) (flags : List MsFlag)
  | Nodiratime (clear : Bool) (flags : List MsFlag)
  | Bind (clear : Bool) (flags : List MsFlag)
  | Rbind (clear : Bool) (flags : List MsFlag)
  | Unbindable (clear : Bool) (flags : List MsFlag)
  | Runbindable (clear : Bool) (flags : List MsFlag)
  | Private (clear : Bool) (flags : List MsFlag)
  | Rprivate (clear : Bool) (flags : List MsFlag)
  | Shared (clear : Bool) (flags : List MsFlag)
  | Rshared (clear : Bool) (flags : List MsFlag)
  | Slave (clear : Bool) (flags : List MsFlag)
  | Rslave (clear : Bool) (flags : List MsFlag)
  | Relatime (clear : Bool) (flags : List MsFlag)
  | Norelatime (clear : Bool) (flags : List MsFlag)
  | Strictatime (clear : Bool) (flags : List MsFlag)
  | Nostrictatime (clear : Bool) (flags : List MsFlag)
deriving DecidableEq, Repr

/-- The arms of the `match option` in `MountOption::from_str`, as an ordered
token → result table. -/
def mountOptionTable : List (String × MountOption) := [
  ("defaults", .Defaults false []),
  ("ro", .Ro false [.rdonly]),
  ("rw", .Rw true [.rdonly]),
  ("suid", .Suid true [.nosuid]),
  ("nosuid", .Nosuid false [.nosuid]),
  ("dev", .Dev true [.nodev]),
  ("nodev", .Nodev false [.nodev]),
  ("exec", .Exec true [.noexec]),
  ("noexec", .Noexec false [.noexec]),
  ("sync", .Sync false [.synchronous]),
  ("async", .Async true [.synchronous]),
  ("dirsync", .Dirsync false [.dirsync]),
  ("remount", .Remount false [.remount]),
  ("mand", .Mand false [.mandlock]),
  ("nomand", .Nomand true [.mandlock]),
  ("atime", .Atime true [.noatime]),
  ("noatime", .Noatime false [.noatime]),
  ("diratime", .Diratime true [.nodiratime]),
  ("nodiratime", .Nodiratime false [.nodiratime]),
  ("bind", .Bind false [.bind]),
  ("rbind", .Rbind false [.bind, .recursive]),
  ("unbindable", .Unbindable false [.unbindable]),
  ("runbindable", .Runbindable false [.unbindable, .recursive]),
  ("private", .Private true [.priv]),
  ("rprivate", .Rprivate true [.priv, .recursive]),
  ("shared", .Shared true [.shared]),
  ("rshared", .Rshared true [.shared, .recursive]),
  ("slave", .Slave true [.slave]),
  ("rslave", .Rslave true [.slave, .recursive]),
  ("relatime", .Relatime false [.relatime]),
  ("norelatime", .Norelatime true [.relatime]),
  ("strictatime", .Strictatime false [.strictatime]),
  ("nostrictatime", .Nostrictatime true [.strictatime])]

/-- First-match lookup over an association list keyed by strings. -/
def lookupStr {α : Type} (s : String) : List (String × α) → Option α
  | [] => none
  | (k, v) :: rest => if s = k then some v else lookupStr s rest

/-- `MountOption::from_str`: a recognized token yields its table entry, any
other string is an error carrying exactly the offending string. -/
def MountOption.fromStr (option : String) : Except String MountOption :=
  match lookupStr option mountOptionTable with
  | some o => Except.ok o
  | none => Except.error option

/-- `MountOption::known_options()`: the full recognized vocabulary. -/
def MountOption.known_options : List String := [
  "defaults", "ro", "rw", "suid", "nosuid", "dev", "nodev", "exec", "noexec",
  "sync", "async", "dirsync", "remount", "mand", "nomand", "atime", "noatime",
  "diratime", "nodiratime", "bind", "rbind", "unbindable", "runbindable",
  "private", "rprivate", "shared", "rshared", "slave", "rslave", "relatime",
  "norelatime", "strictatime", "nostrictatime"]

/-! ### Recursive mount attributes (`linux.rs`) -/

/-- `mount_setattr(2)` attribute bits, values as defined at the top of
`linux.rs`. -/
def MOUNT_ATTR_RDONLY : Nat := 0x00000001

/-- Attribute bit `MOUNT_ATTR_NOSUID`. -/
def MOUNT_ATTR_NOSUID : Nat := 0x00000002

/-- Attribute bit `MOUNT_ATTR_NODEV`. -/
def MOUNT_ATTR_NODEV : Nat := 0x00000004

/-- Attribute bit `MOUNT_ATTR_NOEXEC`. -/
def MOUNT_ATTR_NOEXEC : Nat := 0x00000008

/-- Attribute bit `MOUNT_ATTR_RELATIME` (zero: relative atime is the default). -/
def MOUNT_ATTR_RELATIME : Nat := 0x00000000

/-- Attribute bit `MOUNT_ATTR_NOATIME`. -/
def MOUNT_ATTR_NOATIME : Nat := 0x00000010

/-- Attribute bit `MOUNT_ATTR_STRICTATIME`. -/
def MOUNT_ATTR_STRICTATIME : Nat := 0x00000020

/-- Attribute bit `MOUNT_ATTR_NODIRATIME`. -/
def MOUNT_ATTR_NODIRATIME : Nat := 0x00000080

/-- Attribute bit `MOUNT_ATTR_NOSYMFOLLOW`. -/
def MOUNT_ATTR_NOSYMFOLLOW : Nat := 0x00200000

/-- The `MountRecursive` enumeration: each variant carries the clear-polarity
flag and the attribute bit exactly as constructed in its `from_str`. -/
inductive MountRecursive where
  | Rdonly (clear : Bool) (attr : Nat)
  | Nosuid (clear : Bool) (attr : Nat)
  | Nodev (clear : Bool) (attr : Nat)
  | Noexec (clear : Bool) (attr : Nat)
  | Atime (clear : Bool) (attr : Nat)
  | Relatime (clear : Bool) (attr : Nat)
  | Noatime (clear : Bool) (attr : Nat)
  | StrictAtime (clear : Bool) (attr : Nat)
  | NoDiratime (clear : Bool) (attr : Nat)
  | Nosymfollow (clear : Bool) (attr : Nat)
deriving DecidableEq, Repr

/-- The `SyscallError` variants relevant to this development. -/
inductive SyscallError where
  | unexpectedMountRecursiveOption (option : String)
  | nix (errno : Nat)
deriving DecidableEq, Repr

/-- The arms of the `match option` in `MountRecursive::from_str`. -/
def mountRecursiveTable : List (String × MountRecursive) := [
  ("rro", .Rdonly false MOUNT_ATTR_RDONLY),
  ("rrw", .Rdonly true MOUNT_ATTR_RDONLY),
  ("rnosuid", .Nosuid false MOUNT_ATTR_NOSUID),
  ("rsuid", .Nosuid true MOUNT_ATTR_NOSUID),
  ("rnodev", .Nodev false MOUNT_ATTR_NODEV),
  ("rdev", .Nodev true MOUNT_ATTR_NODEV),
  ("rnoexec", .Noexec false MOUNT_ATTR_NOEXEC),
  ("rexec", .Noexec true MOUNT_ATTR_NOEXEC),
  ("rnodiratime", .NoDiratime false MOUNT_ATTR_NODIRATIME),
  ("rdiratime", .NoDiratime true MOUNT_ATTR_NODIRATIME),
  ("rrelatime", .Relatime false MOUNT_ATTR_RELATIME),
  ("rnorelatime", .Relatime true MOUNT_ATTR_RELATIME),
  ("rnoatime", .Noatime false MOUNT_ATTR_NOATIME),
  ("ratime", .Noatime true MOUNT_ATTR_NOATIME),
  ("rstrictatime", .StrictAtime false MOUNT_ATTR_STRICTATIME),
  ("rnostrictatime", .StrictAtime true MOUNT_ATTR_STRICTATIME),
  ("rnosymfollow", .Nosymfollow false MOUNT_ATTR_NOSYMFOLLOW),
  ("rsymfollow", .Nosymfollow true MOUNT_ATTR_NOSYMFOLLOW)]

/-- `MountRecursive::from_str`: a recognized token yields its table entry,
any other string is `SyscallError::UnexpectedMountRecursiveOption` carrying
that string. -/
def MountRecursive.fromStr (option : String) : Except SyscallError MountRecursive :=
  match lookupStr option mountRecursiveTable with
  | some o => Except.ok o
  | none => Except.error (SyscallError.unexpectedMountRecursiveOption option)

/-! ### Root replacement: `LinuxSyscall::pivot_rootfs`

The function is a straight-line sequence of fallible syscalls. Each
underlying call's outcome is fixed by a `PivotWorld` record (an error code,
or success, with the file descriptor `open` would return); the embedding
returns the trace of calls issued together with the error, if any, at which
the sequence stopped.
-/

/-- The `OFlag` bits `pivot_rootfs` passes to `open`. -/
inductive OpenFlag where
  | oDirectory | oRdonly | oCloexec
deriving DecidableEq, Repr

/-- The `MntFlags` bits passed to `umount2`. -/
inductive MntFlag where
  | detach
deriving DecidableEq, Repr

/-- One operating-system call issued by `pivot_rootfs`, with its arguments. -/
inductive PivotEvent where
  | openCall (path : String) (flags : List OpenFlag)
  | pivotRootCall (new_root put_old : String)
  | mountCall (source : Option String) (target : String) (fstype : Option String)
      (flags : List MsFlag) (data : Option String)
  | umount2Call (target : String) (flags : List MntFlag)
  | fchdirCall (fd : Int)
  | closeCall (fd : Int)
deriving DecidableEq, Repr

/-- Outcomes of the underlying syscalls for one run of `pivot_rootfs`:
`none` means the call succeeds, `some errno` that it fails; `newrootFd` is
the descriptor a successful `open` returns. -/
structure PivotWorld where
  openErr : Option Nat
  newrootFd : Int
  pivotErr : Option Nat
  mountErr : Option Nat
  umountErr : Option Nat
  fchdirErr : Option Nat
  closeErr : Option Nat
deriving DecidableEq, Repr

/-- `LinuxSyscall::pivot_rootfs`: open the new root directory read-only,
pivot_root with the same path twice, remount "/" slave+recursive, detach-
unmount "/", fchdir to the held descriptor, close it. Each `?` in the
source propagates the first failing call's error. -/
def pivot_rootfs (w : PivotWorld) (path : String) : List PivotEvent × Option Nat :=
  let t := [PivotEvent.openCall path [.oDirectory, .oRdonly, .oCloexec]]
  match w.openErr with
  | some e => (t, some e)
  | none =>
  let newroot := w.newrootFd
  let t := t ++ [PivotEvent.pivotRootCall path path]
  match w.pivotErr with
  | some e => (t, some e)
  | none =>
  let t := t ++ [PivotEvent.mountCall none "/" none [.slave, .recursive] none]
  match w.mountErr with
  | some e => (t, some e)
  | none =>
  let t := t ++ [PivotEvent.umount2Call "/" [.detach]]
  match w.umountErr with
  | some e => (t, some e)
  | none =>
  let t := t ++ [PivotEvent.fchdirCall newroot]
  match w.fchdirErr with
  | some e => (t, some e)
  | none =>
  let t := t ++ [PivotEvent.closeCall newroot]
  match w.closeErr with
  | some e => (t, some e)
  | none => (t, none)

/-! ### Identity transition: `LinuxSyscall::set_id` -/

/-- One call issued by `set_id`. `reset_effective` stands for
`capabilities::reset_effective`, the reduction of the capability set to the
effective set. -/
inductive SetIdEvent where
  | keepCapabilitiesCall (v : Bool)
  | setresgidCall (r e s : Nat)
  | setresuidCall (r e s : Nat)
  | resetEffectiveCall
deriving DecidableEq, Repr

/-- Outcomes of the underlying calls for one run of `set_id` (`none` means
success). -/
structure SetIdWorld where
  keepTrueErr : Option Nat
  setresgidErr : Option Nat
  setresuidErr : Option Nat
  resetEffectiveErr : Option Nat
  keepFalseErr : Option Nat
deriving DecidableEq, Repr

/-- Shared tail of `set_id`: disable keep-capabilities and return. -/
def setIdTail (w : SetIdWorld) (t : List SetIdEvent) : List SetIdEvent × Option Nat :=
  let t := t ++ [SetIdEvent.keepCapabilitiesCall false]
  match w.keepFalseErr with
  | some e => (t, some e)
  | none => (t, none)

/-- `LinuxSyscall::set_id`: enable keep-capabilities, setresgid(gid,gid,gid),
setresuid(uid,uid,uid), reset capabilities to the effective set when the
target uid is not root, disable keep-capabilities. Each failing call returns
its error immediately. -/
def set_id (w : SetIdWorld) (uid gid : Nat) : List SetIdEvent × Option Nat :=
  let t := [SetIdEvent.keepCapabilitiesCall true]
  match w.keepTrueErr with
  | some e => (t, some e)
  | none =>
  let t := t ++ [SetIdEvent.setresgidCall gid gid gid]
  match w.setresgidErr with
  | some e => (t, some e)
  | none =>
  let t := t ++ [SetIdEvent.setresuidCall uid uid uid]
  match w.setresuidErr with
  | some e => (t, some e)
  | none =>
  if uid ≠ 0 then
    let t := t ++ [SetIdEvent.resetEffectiveCall]
    match w.resetEffectiveErr with
    | some e => (t, some e)
    | none => setIdTail w t
  else setIdTail w t

/-! ### File-descriptor hygiene: `close_range` and its userspace fallback

The observable state is the process's descriptor table: the list of open
descriptors, each with its close-on-exec flag. Both paths only flip
close-on-exec flags, so both are functions from table to table.
-/

/-- A descriptor table: open descriptor numbers with their close-on-exec flags. -/
abbrev FdTable := List (Int × Bool)

/-- Largest value of a C `int` (the `last` argument the fast path passes). -/
def c_int_max : Int := 2 ^ 31 - 1

/-- The open descriptors of the table, as `get_open_fds` observes them via
the `/proc/self/fd` directory. -/
def get_open_fds (t : FdTable) : List Int :=
  t.map Prod.fst

/-- Effect of `fcntl(fd, F_SETFD(FD_CLOEXEC))` on the table: mark that
descriptor close-on-exec. -/
def setCloexec (fd : Int) (t : FdTable) : FdTable :=
  t.map fun e => if e.1 = fd then (e.1, true) else e

/-- `LinuxSyscall::emulate_close_range`: enumerate the open descriptors,
keep those at or above `preserve_fds + 3` (stdio accounts for the 3), and
mark each one close-on-exec individually. -/
def emulate_close_range (preserve_fds : Int) (t : FdTable) : FdTable :=
  let min_fd := preserve_fds + 3
  let to_be_cleaned_up_fds := (get_open_fds t).filter fun fd => min_fd ≤ fd
  to_be_cleaned_up_fds.foldl (fun acc fd => setCloexec fd acc) t

/-- Kernel semantics of `close_range(first, last, CLOSE_RANGE_CLOEXEC)`
(environment model, per close_range(2)): mark every open descriptor in the
inclusive range close-on-exec; nothing is closed. -/
def kernelCloseRangeCloexec (first last : Int) (t : FdTable) : FdTable :=
  t.map fun e => if first ≤ e.1 ∧ e.1 ≤ last then (e.1, true) else e

/-- The fast path of `LinuxSyscall::close_range`: one bulk
`close_range(3 + preserve_fds, c_int::MAX, CLOSE_RANGE_CLOEXEC)` call. -/
def close_range_fast (preserve_fds : Int) (t : FdTable) : FdTable :=
  kernelCloseRangeCloexec (3 + preserve_fds) c_int_max t

/-! ### Helper lemmas -/

/-- Lookup misses when the key is absent from the table. -/
theorem lookupStr_eq_none {α : Type} (s : String) (l : List (String × α))
    (h : s ∉ l.map Prod.fst) : lookupStr s l = none := by
  induction l with
  | nil => rfl
  | cons p rest ih =>
    simp only [List.map_cons, List.mem_cons, not_or] at h
    simp [lookupStr, h.1, ih h.2]

/-- A fold of per-descriptor close-on-exec updates marks exactly the
descriptors listed. -/
theorem foldl_setCloexec (l : List Int) (t : FdTable) :
    l.foldl (fun acc fd => setCloexec fd acc) t =
      t.map (fun e => if e.1 ∈ l then (e.1, true) else e) := by
  induction l generalizing t with
  | nil => simp
  | cons a l ih =>
    rw [List.foldl_cons, ih, setCloexec, List.map_map]
    apply List.map_congr_left
    intro e _
    by_cases h1 : e.1 = a <;> by_cases h2 : e.1 ∈ l <;>
      simp [Function.comp, h1, h2]

/-- The userspace fallback marks exactly the descriptors at or above
`preserve_fds + 3` close-on-exec and touches nothing else. -/
theorem emulate_eq_threshold (preserve_fds : Int) (t : FdTable) :
    emulate_close_range preserve_fds t =
      t.map (fun e => if preserve_fds + 3 ≤ e.1 then (e.1, true) else e) := by
  rw [emulate_close_range]
  simp only [get_open_fds, foldl_setCloexec]
  apply List.map_congr_left
  intro e he
  have hin : e.1 ∈ t.map Prod.fst := List.mem_map_of_mem Prod.fst he
  by_cases hle : preserve_fds + 3 ≤ e.1 <;> simp [List.mem_filter, hin, hle]

/-! ### The claims -/

/-- C1: whenever `pivot_rootfs` succeeds, it has performed exactly these
calls in this order, none skipped: open the new root directory
(O_DIRECTORY | O_RDONLY | O_CLOEXEC), pivot_root with the same path as both
new and old root, remount "/" with MS_SLAVE | MS_REC, detach-unmount "/",
fchdir to the held descriptor, and close that descriptor. -/
theorem pivot_rootfs_success_trace :
    ∀ (w : PivotWorld) (path : String),
      (pivot_rootfs w path).2 = none →
      (pivot_rootfs w path).1 =
        [PivotEvent.openCall path [.oDirectory, .oRdonly, .oCloexec],
         PivotEvent.pivotRootCall path path,
         PivotEvent.mountCall none "/" none [.slave, .recursive] none,
         PivotEvent.umount2Call "/" [.detach],
         PivotEvent.fchdirCall w.newrootFd,
         PivotEvent.closeCall w.newrootFd] := by
  intro w path h
  obtain ⟨o, fd, p, m, u, f, c⟩ := w
  cases o <;> cases p <;> cases m <;> cases u <;> cases f <;> cases c <;>
    simp_all [pivot_rootfs]

/-- Witness for C1: a concrete all-succeeding world produces exactly the
six-step trace. -/
theorem pivot_rootfs_success_trace_witness :
    (pivot_rootfs ⟨none, 5, none, none, none, none, none⟩ "/newroot").2 = none ∧
    (pivot_rootfs ⟨none, 5, none, none, none, none, none⟩ "/newroot").1 =
      [PivotEvent.openCall "/newroot" [.oDirectory, .oRdonly, .oCloexec],
       PivotEvent.pivotRootCall "/newroot" "/newroot",
       PivotEvent.mountCall none "/" none [.slave, .recursive] none,
       PivotEvent.umount2Call "/" [.detach],
       PivotEvent.fchdirCall 5,
       PivotEvent.closeCall 5] :=
  ⟨rfl, pivot_rootfs_success_trace ⟨none, 5, none, none, none, none, none⟩ "/newroot" rfl⟩

/-- C2: whenever `set_id` succeeds, its calls are exactly: enable
keep-capabilities, setresgid(gid,gid,gid), setresuid(uid,uid,uid), then the
capability reduction exactly when the target uid is non-zero, then disable
keep-capabilities; so the gid-set call precedes the uid-set call and the
capability reduction (when present) follows the uid-set call. -/
theorem set_id_success_trace :
    ∀ (w : SetIdWorld) (uid gid : Nat),
      (set_id w uid gid).2 = none →
      (set_id w uid gid).1 =
        [SetIdEvent.keepCapabilitiesCall true,
         SetIdEvent.setresgidCall gid gid gid,
         SetIdEvent.setresuidCall uid uid uid] ++
        (if uid ≠ 0 then [SetIdEvent.resetEffectiveCall] else []) ++
        [SetIdEvent.keepCapabilitiesCall false] := by
  intro w uid gid h
  obtain ⟨k1, g, u, r, k2⟩ := w
  by_cases hu : uid = 0 <;>
    cases k1 <;> cases g <;> cases u <;> cases r <;> cases k2 <;>
    simp_all [set_id, setIdTail]

/-- Witness for C2: a concrete all-succeeding world with a non-root uid
yields the five-step trace with the capability reduction after the uid-set
call. -/
theorem set_id_success_trace_witness :
    (set_id ⟨none, none, none, none, none⟩ 1000 1000).2 = none ∧
    (set_id ⟨none, none, none, none, none⟩ 1000 1000).1 =
      [SetIdEvent.keepCapabilitiesCall true,
       SetIdEvent.setresgidCall 1000 1000 1000,
       SetIdEvent.setresuidCall 1000 1000 1000,
       SetIdEvent.resetEffectiveCall,
       SetIdEvent.keepCapabilitiesCall false] :=
  ⟨rfl, by
    have h := set_id_success_trace ⟨none, none, none, none, none⟩ 1000 1000 rfl
    simpa using h⟩

/-- C3: for descriptor tables whose descriptors fit in a C int, the
userspace fallback and the fast-path bulk close-range call produce the same
table; that table marks every descriptor at or above `preserve_fds + 3`
close-on-exec, leaves every descriptor below that threshold unchanged, and
the fallback closes nothing (the set of open descriptors is preserved). -/
theorem close_range_fallback_equiv :
    ∀ (preserve_fds : Int) (t : FdTable),
      (∀ e ∈ t, e.1 ≤ c_int_max) →
      emulate_close_range preserve_fds t = close_range_fast preserve_fds t ∧
      emulate_close_range preserve_fds t =
        t.map (fun e => if preserve_fds + 3 ≤ e.1 then (e.1, true) else e) ∧
      get_open_fds (emulate_close_range preserve_fds t) = get_open_fds t := by
  intro p t hb
  have h2 := emulate_eq_threshold p t
  refine ⟨?_, h2, ?_⟩
  · rw [h2, close_range_fast, kernelCloseRangeCloexec]
    apply List.map_congr_left
    intro e he
    have hmax := hb e he
    by_cases hle : p + 3 ≤ e.1
    · have h3 : 3 + p ≤ e.1 := by omega
      simp [hle, h3, hmax]
    · have h3 : ¬(3 + p ≤ e.1 ∧ e.1 ≤ c_int_max) := by
        intro hc
        exact hle (by omega)
      simp [hle, h3]
  · rw [h2, get_open_fds, get_open_fds, List.map_map]
    apply List.map_congr_left
    intro e _
    by_cases hle : p + 3 ≤ e.1 <;> simp [Function.comp, hle]

/-- Witness for C3: a concrete table with descriptors 0, 3, 4, 7 and one
preserved descriptor: both paths agree, descriptors 4 and 7 become
close-on-exec, descriptors 0 and 3 are untouched. -/
theorem close_range_fallback_equiv_witness :
    emulate_close_range 1 [(0, false), (3, false), (4, true), (7, false)] =
      close_range_fast 1 [(0, false), (3, false), (4, true), (7, false)] ∧
    emulate_close_range 1 [(0, false), (3, false), (4, true), (7, false)] =
      [(0, false), (3, false), (4, true), (7, true)] :=
  ⟨(close_range_fallback_equiv 1 [(0, false), (3, false), (4, true), (7, false)]
      (by decide)).1,
   by decide⟩

/-- C4: the "cpu.max" override with the two-token value "500000 250000"
inserts quota 500000 and period 250000; with the one-token value "500000"
it inserts quota 500000 and inserts no period entry at all; a value with
zero or more than two whitespace-separated tokens fails with the `CpuMax`
error carrying the offending value and leaves the map unchanged. -/
theorem cpu_max_override_parse :
    (∀ (ver : Nat) (props : Props),
      applyEntry "cpu.max" "500000 250000" ver props =
        (insertProp (insertProp props CPU_QUOTA (Value.u64 500000)) CPU_PERIOD
          (Value.u64 250000), none)) ∧
    (∀ (ver : Nat) (props : Props),
      applyEntry "cpu.max" "500000" ver props =
        (insertProp props CPU_QUOTA (Value.u64 500000), none)) ∧
    (∀ ver : Nat, lookupProp (applyEntry "cpu.max" "500000" ver []).1 CPU_PERIOD = none) ∧
    (∀ (value : String) (ver : Nat) (props : Props),
      splitWhitespace value = [] ∨ 2 < (splitWhitespace value).length →
      applyEntry "cpu.max" value ver props =
        (props, some (SystemdUnifiedError.cpuMax value))) := by
  refine ⟨fun ver props => rfl, fun ver props => rfl, fun ver => rfl, ?_⟩
  intro value ver props h
  rcases hl : splitWhitespace value with _ | ⟨p0, _ | ⟨p1, _ | ⟨p2, rest⟩⟩⟩ <;>
    rw [hl] at h <;> simp [applyEntry, hl] <;> rcases h with h | h <;> simp_all

/-- Witness for C4: the three-token value "1 2 3" is a hard `CpuMax` parse
error carrying the value. -/
theorem cpu_max_override_parse_witness :
    applyEntry "cpu.max" "1 2 3" 245 [] = ([], some (SystemdUnifiedError.cpuMax "1 2 3")) :=
  cpu_max_override_parse.2.2.2 "1 2 3" 245 [] (Or.inr (by decide))

/-- C5: for the keys "cpuset.cpus" and "cpuset.mems", any value and any
property map: with systemd_version ≤ 243 the entry fails with the
version-gated `OldSystemd` error naming the key and the map is unchanged;
with systemd_version > 243 the entry never fails on version grounds, and
whenever the value converts to a bitmask the entry succeeds inserting that
bitmask under the corresponding property name. -/
theorem cpuset_version_gate :
    ∀ key : String, key = "cpuset.cpus" ∨ key = "cpuset.mems" →
    ∀ (value : String) (ver : Nat) (props : Props),
      (ver ≤ 243 →
        applyEntry key value ver props =
          (props, some (SystemdUnifiedError.oldSystemd key))) ∧
      (243 < ver →
        (∀ k, (applyEntry key value ver props).2 ≠ some (SystemdUnifiedError.oldSystemd k)) ∧
        ∀ bm, to_bitmask value = Except.ok bm →
          applyEntry key value ver props =
            (insertProp props (if key = "cpuset.cpus" then ALLOWED_CPUS else ALLOWED_NODES)
              (Value.arr bm), none)) := by
  intro key hkey value ver props
  have hnot : 243 < ver → ¬(ver ≤ 243) := fun h => by omega
  constructor
  · intro hver
    rcases hkey with h | h <;> subst h <;> simp [applyEntry, hver]
  · intro hver
    constructor
    · intro k
      rcases hkey with h | h <;> subst h <;>
        rcases hbm : to_bitmask value with e | bm <;>
        simp [applyEntry, hnot hver, hbm]
    · intro bm hbm
      rcases hkey with h | h <;> subst h <;> simp [applyEntry, hnot hver, hbm]

/-- Witness for C5: with the value "0-3", version 243 fails with the
version-gated error and version 245 inserts the one-byte bitmask 15. -/
theorem cpuset_version_gate_witness :
    applyEntry "cpuset.cpus" "0-3" 243 [] =
      ([], some (SystemdUnifiedError.oldSystemd "cpuset.cpus")) ∧
    applyEntry "cpuset.cpus" "0-3" 245 [] = ([(ALLOWED_CPUS, Value.arr [15])], none) :=
  ⟨(cpuset_version_gate "cpuset.cpus" (Or.inl rfl) "0-3" 243 []).1 (by decide),
   by
    have h := ((cpuset_version_gate "cpuset.cpus" (Or.inl rfl) "0-3" 245 []).2
      (by decide)).2 [15] (by rfl)
    simpa using h⟩

/-- C6: an override entry whose key is none of the nine recognized keys
produces no error and inserts nothing: the property map is returned
unchanged. -/
theorem unknown_key_skipped :
    ∀ key : String,
      key ∉ ["cpu.weight", "cpu.max", "cpuset.cpus", "cpuset.mems", "memory.min",
        "memory.low", "memory.high", "memory.max", "pids.max"] →
      ∀ (value : String) (ver : Nat) (props : Props),
        applyEntry key value ver props = (props, none) := by
  intro key h value ver props
  simp only [List.mem_cons, List.not_mem_nil, or_false, not_or] at h
  obtain ⟨h1, h2, h3, h4, h5, h6, h7, h8, h9⟩ := h
  simp [applyEntry, h1, h2, h3, h4, h5, h6, h7, h8, h9]

/-- Witness for C6: the unknown key "io.max" is skipped without error and
without touching the map. -/
theorem unknown_key_skipped_witness :
    applyEntry "io.max" "1000" 245 [(CPU_WEIGHT, Value.u64 840)] =
      ([(CPU_WEIGHT, Value.u64 840)], none) :=
  unknown_key_skipped "io.max" (by decide) "1000" 245 [(CPU_WEIGHT, Value.u64 840)]

/-- C7: the shares-to-weight remapping is the pure function "clamp shares to
[2, 262144], then weight = 1 + ((shares - 2) * 9999) / 262142 rounded
down"; input 22000 yields exactly 840, and the "cpu.weight" entry for
"22000" inserts weight 840 (the value the in-source test `test_set`
expects). -/
theorem cpu_weight_remap :
    (∀ shares : Nat,
      convert_shares_to_cgroup2 shares =
        1 + (min (max shares 2) 262144 - 2) * 9999 / 262142) ∧
    convert_shares_to_cgroup2 22000 = 840 ∧
    ∀ (ver : Nat) (props : Props),
      applyEntry "cpu.weight" "22000" ver props =
        (insertProp props CPU_WEIGHT (Value.u64 840), none) :=
  ⟨fun shares => rfl, by decide, fun ver props => rfl⟩

/-- C8 (amended): the "pids.max" entry parses its value as a signed 64-bit
integer after trimming surrounding whitespace: a value that does not parse
as an i64 is rejected with the `PidsMax` error carrying the value, and an
accepted value — negatives included — is stored as that integer cast to
u64 with two's-complement wrapping. -/
theorem pids_max_parse_signed :
    (∀ (value : String) (ver : Nat) (props : Props),
      parseI64 (trimString value) = none →
      applyEntry "pids.max" value ver props =
        (props, some (SystemdUnifiedError.pidsMax value))) ∧
    (∀ (value : String) (ver : Nat) (props : Props) (n : Int),
      parseI64 (trimString value) = some n →
      applyEntry "pids.max" value ver props =
        (insertProp props TASKS_MAX (Value.u64 (i64ToU64 n)), none)) := by
  constructor
  · intro value ver props h
    simp [applyEntry, h]
  · intro value ver props n h
    simp [applyEntry, h]

/-- Witness for C8 (amended): "abc" is a parse error; " 100 " is accepted
after trimming and stored as 100. -/
theorem pids_max_parse_signed_witness :
    applyEntry "pids.max" "abc" 245 [] = ([], some (SystemdUnifiedError.pidsMax "abc")) ∧
    applyEntry "pids.max" " 100 " 245 [] = ([(TASKS_MAX, Value.u64 100)], none) :=
  ⟨pids_max_parse_signed.1 "abc" 245 [] (by decide),
   (pids_max_parse_signed.2 " 100 " 245 [] 100 (by decide)).trans (by decide)⟩

/-- C8 counterexample: the negative value "-1" is not rejected — the entry
succeeds and stores the two's-complement cast 2^64 - 1, contradicting the
claim that a negative number is a parse error. -/
theorem pids_max_negative_accepted :
    applyEntry "pids.max" "-1" 245 [] =
      ([(TASKS_MAX, Value.u64 18446744073709551615)], none) := by decide

/-- C9: every string outside the recognized mount-option vocabulary makes
`MountOption::from_str` return an error carrying exactly that string, and
every string outside the recursive mount-attribute vocabulary makes
`MountRecursive::from_str` return the hard parse error naming that
string. -/
theorem unrecognized_token_rejected :
    (∀ s : String, s ∉ MountOption.known_options →
      MountOption.fromStr s = Except.error s) ∧
    (∀ s : String, s ∉ mountRecursiveTable.map Prod.fst →
      MountRecursive.fromStr s =
        Except.error (SyscallError.unexpectedMountRecursiveOption s)) := by
  constructor
  · intro s h
    have hk : mountOptionTable.map Prod.fst = MountOption.known_options := rfl
    rw [← hk] at h
    simp [MountOption.fromStr, lookupStr_eq_none s mountOptionTable h]
  · intro s h
    simp [MountRecursive.fromStr, lookupStr_eq_none s mountRecursiveTable h]

/-- Witness for C9: the unrecognized token "bogus" is rejected by both
parsers with the literal offending string. -/
theorem unrecognized_token_rejected_witness :
    MountOption.fromStr "bogus" = Except.error "bogus" ∧
    MountRecursive.fromStr "bogus" =
      Except.error (SyscallError.unexpectedMountRecursiveOption "bogus") :=
  ⟨unrecognized_token_rejected.1 "bogus" (by decide),
   unrecognized_token_rejected.2 "bogus" (by decide)⟩

/-- C10: `Unified::apply` mutates the property map incrementally and does
not roll back on failure: processing a well-formed "cpu.weight" entry
followed by a malformed "cpu.max" entry returns an error while the property
converted from the well-formed entry remains in the map, which therefore
differs from its (empty) pre-call state. -/
theorem apply_error_keeps_partial_insert :
    applyUnified [("cpu.weight", "100"), ("cpu.max", "1 2 3")] 245 [] =
      ([(CPU_WEIGHT, Value.u64 4)], some (SystemdUnifiedError.cpuMax "1 2 3")) ∧
    ([(CPU_WEIGHT, Value.u64 4)] : Props) ≠ ([] : Props) := by
  exact ⟨by decide, by decide⟩

end Youki
